import Mathlib

/-
Verification of the parameter-binding and constraint subsystem declared in
src/Parameter.h (Halide). The header gives the data model and the bodies of
the templated scalar accessors; the remaining operation bodies live in an
implementation file that is not part of the given source, so those operations
are modelled from the specification, as marked on each definition.
-/

set_option autoImplicit false

namespace HalideSpec

/-! ## Types -/

/-- The four type codes of the IR's scalar type system. -/
inductive TypeCode where
  | tInt
  | tUInt
  | tFloat
  | tHandle
deriving DecidableEq, Repr

/-- A scalar/vector element type: code, bit width, lane count. -/
structure HType where
  code : TypeCode
  bits : Nat
  lanes : Nat
deriving DecidableEq, Repr

/-- `Type::is_handle()`: true iff the type code is Handle. -/
def HType.is_handle (t : HType) : Bool :=
  t.code == TypeCode.tHandle

/-- `UInt(64)`: the 64-bit unsigned integer type. -/
def uInt64 : HType := ⟨TypeCode.tUInt, 64, 1⟩

/-- `Int(32)`: the 32-bit signed integer type. -/
def int32 : HType := ⟨TypeCode.tInt, 32, 1⟩

/-- `Float(32)`: the 32-bit floating-point type. -/
def float32 : HType := ⟨TypeCode.tFloat, 32, 1⟩

/-- An example handle type (a pointer type with a subtype tag encoded in
the bit/lane fields is irrelevant here; all handles are 64-bit). -/
def handle64 : HType := ⟨TypeCode.tHandle, 64, 1⟩

/-! ## Expressions

The expression type is an external collaborator: an opaque value type with
structural equality, a type query, and an undefined sentinel state. Only the
constructors the constraint subsystem needs are modelled. -/

/-- Symbolic IR expression (opaque collaborator of the parameter subsystem):
undefined sentinel, integer immediate, named variable, sum, difference. -/
inductive Expr where
  | undef
  | intImm (t : HType) (v : Int)
  | varE (t : HType) (nm : String)
  | add (a b : Expr)
  | sub (a b : Expr)
deriving DecidableEq, Repr

/-- `Expr::defined()`: everything except the undefined sentinel is defined. -/
def Expr.defined : Expr → Bool
  | .undef => false
  | _ => true

/-- `Expr::type()` on a defined expression. -/
def Expr.typeOf : Expr → HType
  | .undef => ⟨TypeCode.tHandle, 0, 0⟩
  | .intImm t _ => t
  | .varE t _ => t
  | .add a _ => a.typeOf
  | .sub a _ => a.typeOf

/-- Modelled from the spec: symbolic addition used by derived shape
expressions (the expression operators live outside the given source).
Two integer immediates of one type fold to an immediate, so that concrete
bounds yield concrete derived coordinates. -/
def Expr.addE : Expr → Expr → Expr
  | .intImm t a, .intImm t' b =>
      if t = t' then .intImm t (a + b) else .add (.intImm t a) (.intImm t' b)
  | a, b => .add a b

/-- Modelled from the spec: symbolic subtraction, folding immediates like
`Expr.addE`. -/
def Expr.subE : Expr → Expr → Expr
  | .intImm t a, .intImm t' b =>
      if t = t' then .intImm t (a - b) else .sub (.intImm t a) (.intImm t' b)
  | a, b => .sub a b

/-! ## ParameterContents

The shared record behind a `Parameter` handle. Per-axis constraint and
estimate storage is one list entry per dimension; an absent constraint is the
undefined expression, never a sentinel number. The scalar slot is modelled as
a raw 64-bit bit pattern, matching the type-sized raw storage of the record. -/

/-- The mutable shared state of one parameter: identity, type, shape
constraints, scheduler estimates, and the currently bound scalar value. -/
structure ParameterContents where
  id : Nat
  type : HType
  is_buffer : Bool
  dimensions : Int
  name : String
  is_explicit_name : Bool
  is_bound_before_lowering : Bool
  host_alignment : Nat
  min_constraint : List Expr
  extent_constraint : List Expr
  stride_constraint : List Expr
  min_constraint_estimate : List Expr
  extent_constraint_estimate : List Expr
  scalar_data : Nat
  min_value : Expr
  max_value : Expr
  estimate : Expr
deriving DecidableEq, Repr

/-- Well-formedness established by the constructor: constraint storage has
one slot per axis, the rank is non-negative, and scalars have rank zero. -/
def ParameterContents.wf (c : ParameterContents) : Prop :=
  c.min_constraint.length = c.dimensions.toNat ∧
  c.extent_constraint.length = c.dimensions.toNat ∧
  c.stride_constraint.length = c.dimensions.toNat ∧
  c.min_constraint_estimate.length = c.dimensions.toNat ∧
  c.extent_constraint_estimate.length = c.dimensions.toNat ∧
  0 ≤ c.dimensions ∧
  (c.is_buffer = false → c.dimensions = 0)

instance (c : ParameterContents) : Decidable c.wf := by
  unfold ParameterContents.wf
  infer_instance

/-- A `Parameter` is a handle: either undefined (default-constructed, no
record) or a reference to a record. -/
abbrev Parameter := Option ParameterContents

/-- `errs r` is true iff the fallible operation `r` failed with a usage
error. -/
def errs {α : Type} : Except String α → Bool
  | .error _ => true
  | .ok _ => false

/-! ## Parameter: construction and identity -/

/-- Modelled from the spec: `Parameter(type, is_buffer, dims, name,
is_explicit_name, is_bound_before_lowering)` (body in the missing
implementation file). Fails with a usage error if `is_buffer == false` and
`dims != 0`; a negative rank is likewise a usage error. The fresh record
identity (the pointer of the record) and the possibly auto-generated unique
name are passed in explicitly. Host alignment defaults to the byte size of
one element; all constraints start absent; the scalar slot starts zeroed. -/
def Parameter.make (id : Nat) (t : HType) (is_buffer : Bool) (dims : Int)
    (nm : String) (is_explicit_name : Bool) (is_bound_before_lowering : Bool) :
    Except String Parameter :=
  if is_buffer = false ∧ dims ≠ 0 then
    .error ("Parameter " ++ nm ++ " is not a buffer but has nonzero dimensionality")
  else if dims < 0 then
    .error ("Parameter " ++ nm ++ " has negative dimensionality")
  else
    .ok (some
      { id := id
        type := t
        is_buffer := is_buffer
        dimensions := dims
        name := nm
        is_explicit_name := is_explicit_name
        is_bound_before_lowering := is_bound_before_lowering
        host_alignment := t.bits / 8
        min_constraint := List.replicate dims.toNat Expr.undef
        extent_constraint := List.replicate dims.toNat Expr.undef
        stride_constraint := List.replicate dims.toNat Expr.undef
        min_constraint_estimate := List.replicate dims.toNat Expr.undef
        extent_constraint_estimate := List.replicate dims.toNat Expr.undef
        scalar_data := 0
        min_value := Expr.undef
        max_value := Expr.undef
        estimate := Expr.undef })

/-- `Parameter::defined()`: true iff the handle references a record. -/
def Parameter.defined : Parameter → Bool
  | none => false
  | some _ => true

/-- `Parameter::same_as(other)`: identity comparison of the underlying
shared record (pointer equality, modelled by record identity); two undefined
handles compare equal. -/
def Parameter.same_as : Parameter → Parameter → Bool
  | none, none => true
  | some a, some b => a.id == b.id
  | _, _ => false

/-! ## Parameter: checks and accessors -/

/-- Modelled from the spec: `check_defined` fails with a usage error on an
undefined handle (body in the missing implementation file). -/
def Parameter.check_defined : Parameter → Except String Unit
  | none => .error "Parameter is undefined"
  | some _ => .ok ()

/-- Modelled from the spec: `check_is_buffer` fails on an undefined handle
or a scalar parameter. -/
def Parameter.check_is_buffer : Parameter → Except String Unit
  | none => .error "Parameter is undefined"
  | some c => if c.is_buffer then .ok () else .error "Parameter is not a buffer"

/-- Modelled from the spec: `check_is_scalar` fails on an undefined handle
or a buffer parameter. -/
def Parameter.check_is_scalar : Parameter → Except String Unit
  | none => .error "Parameter is undefined"
  | some c => if c.is_buffer then .error "Parameter is a buffer" else .ok ()

/-- Modelled from the spec: `check_dim_ok(dim)` — per-dimension operations
are only valid on a defined buffer parameter for indices
`0 <= dim < dimensions`; any other index is a usage error. -/
def Parameter.check_dim_ok : Parameter → Int → Except String Unit
  | none, _ => .error "Parameter is undefined"
  | some c, d =>
    if c.is_buffer = false then .error "Parameter is not a buffer"
    else if 0 ≤ d ∧ d < c.dimensions then .ok ()
    else .error "dimension index out of range"

/-- Modelled from the spec: `Parameter::type()`, a pure accessor failing on
an undefined handle. -/
def Parameter.type : Parameter → Except String HType
  | none => .error "Parameter is undefined"
  | some c => .ok c.type

/-- Modelled from the spec: `Parameter::dimensions()`. -/
def Parameter.dimensions : Parameter → Except String Int
  | none => .error "Parameter is undefined"
  | some c => .ok c.dimensions

/-- Modelled from the spec: `Parameter::name()`. -/
def Parameter.name : Parameter → Except String String
  | none => .error "Parameter is undefined"
  | some c => .ok c.name

/-- Modelled from the spec: `Parameter::is_explicit_name()`. -/
def Parameter.is_explicit_name : Parameter → Except String Bool
  | none => .error "Parameter is undefined"
  | some c => .ok c.is_explicit_name

/-- Modelled from the spec: `Parameter::is_bound_before_lowering()`. -/
def Parameter.is_bound_before_lowering : Parameter → Except String Bool
  | none => .error "Parameter is undefined"
  | some c => .ok c.is_bound_before_lowering

/-- Modelled from the spec: `Parameter::is_buffer()`. -/
def Parameter.is_buffer : Parameter → Except String Bool
  | none => .error "Parameter is undefined"
  | some c => .ok c.is_buffer

/-! ## Parameter: per-dimension constraints and estimates -/

/-- Modelled from the spec: `Parameter::min_constraint(dim)` — read the
symbolic min constraint of one axis; absent is the undefined expression.
Fails unless the handle is a defined buffer and the index is in range. -/
def Parameter.min_constraint (p : Parameter) (d : Int) : Except String Expr := do
  p.check_dim_ok d
  match p with
  | none => .error "Parameter is undefined"
  | some c => .ok (c.min_constraint.getD d.toNat Expr.undef)

/-- Modelled from the spec: `Parameter::extent_constraint(dim)`. -/
def Parameter.extent_constraint (p : Parameter) (d : Int) : Except String Expr := do
  p.check_dim_ok d
  match p with
  | none => .error "Parameter is undefined"
  | some c => .ok (c.extent_constraint.getD d.toNat Expr.undef)

/-- Modelled from the spec: `Parameter::stride_constraint(dim)`. -/
def Parameter.stride_constraint (p : Parameter) (d : Int) : Except String Expr := do
  p.check_dim_ok d
  match p with
  | none => .error "Parameter is undefined"
  | some c => .ok (c.stride_constraint.getD d.toNat Expr.undef)

/-- Modelled from the spec: `Parameter::min_constraint_estimate(dim)` — the
scheduler-facing min estimate, undefined when never set. -/
def Parameter.min_constraint_estimate (p : Parameter) (d : Int) : Except String Expr := do
  p.check_dim_ok d
  match p with
  | none => .error "Parameter is undefined"
  | some c => .ok (c.min_constraint_estimate.getD d.toNat Expr.undef)

/-- Modelled from the spec: `Parameter::extent_constraint_estimate(dim)`. -/
def Parameter.extent_constraint_estimate (p : Parameter) (d : Int) : Except String Expr := do
  p.check_dim_ok d
  match p with
  | none => .error "Parameter is undefined"
  | some c => .ok (c.extent_constraint_estimate.getD d.toNat Expr.undef)

/-- Modelled from the spec: `Parameter::set_min_constraint(dim, e)` — write
the min constraint of one axis; an undefined expression clears it. -/
def Parameter.set_min_constraint (p : Parameter) (d : Int) (e : Expr) :
    Except String Parameter := do
  p.check_dim_ok d
  match p with
  | none => .error "Parameter is undefined"
  | some c => .ok (some { c with min_constraint := c.min_constraint.set d.toNat e })

/-- Modelled from the spec: `Parameter::set_extent_constraint(dim, e)`. -/
def Parameter.set_extent_constraint (p : Parameter) (d : Int) (e : Expr) :
    Except String Parameter := do
  p.check_dim_ok d
  match p with
  | none => .error "Parameter is undefined"
  | some c => .ok (some { c with extent_constraint := c.extent_constraint.set d.toNat e })

/-- Modelled from the spec: `Parameter::set_stride_constraint(dim, e)`. -/
def Parameter.set_stride_constraint (p : Parameter) (d : Int) (e : Expr) :
    Except String Parameter := do
  p.check_dim_ok d
  match p with
  | none => .error "Parameter is undefined"
  | some c => .ok (some { c with stride_constraint := c.stride_constraint.set d.toNat e })

/-- Modelled from the spec: `Parameter::set_min_constraint_estimate(dim, e)`. -/
def Parameter.set_min_constraint_estimate (p : Parameter) (d : Int) (e : Expr) :
    Except String Parameter := do
  p.check_dim_ok d
  match p with
  | none => .error "Parameter is undefined"
  | some c =>
    .ok (some { c with min_constraint_estimate := c.min_constraint_estimate.set d.toNat e })

/-- Modelled from the spec: `Parameter::set_extent_constraint_estimate(dim, e)`. -/
def Parameter.set_extent_constraint_estimate (p : Parameter) (d : Int) (e : Expr) :
    Except String Parameter := do
  p.check_dim_ok d
  match p with
  | none => .error "Parameter is undefined"
  | some c =>
    .ok (some { c with extent_constraint_estimate := c.extent_constraint_estimate.set d.toNat e })

/-- Modelled from the spec: `Parameter::host_alignment()` — buffer only. -/
def Parameter.host_alignment (p : Parameter) : Except String Nat := do
  p.check_is_buffer
  match p with
  | none => .error "Parameter is undefined"
  | some c => .ok c.host_alignment

/-- Modelled from the spec: `Parameter::set_host_alignment(bytes)`. -/
def Parameter.set_host_alignment (p : Parameter) (bytes : Nat) :
    Except String Parameter := do
  p.check_is_buffer
  match p with
  | none => .error "Parameter is undefined"
  | some c => .ok (some { c with host_alignment := bytes })

/-! ## Parameter: scalar value and scalar constraints

`get_scalar`/`set_scalar` bodies are in the given source (Parameter.h,
templated): the access type must equal the declared type, except that any
handle-typed parameter may additionally be accessed as `UInt(64)`. The
backing store reached through `get_scalar_address()` is modelled from the
spec as raw 64-bit storage; a `T`-typed access reads or writes the low
`bits(T)` bits, leaving the rest of the slot alone. Values of `T` are
represented by their bit patterns. -/

/-- The type admissibility test of `get_scalar`/`set_scalar` (source:
`type() == type_of<T>() || (type().is_handle() && type_of<T>() == UInt(64))`). -/
def scalar_type_ok (declared u : HType) : Bool :=
  declared == u || (declared.is_handle && u == uInt64)

/-- `Parameter::get_scalar<T>()` with `u = type_of<T>()`: usage error on an
undefined handle, on a type mismatch (per `scalar_type_ok`), or on a buffer
parameter; otherwise the low `u.bits` bits of the slot. -/
def Parameter.get_scalar (p : Parameter) (u : HType) : Except String Nat :=
  match p with
  | none => .error "Parameter is undefined"
  | some c =>
    if scalar_type_ok c.type u then
      if c.is_buffer then .error "Parameter is a buffer"
      else .ok (c.scalar_data % 2 ^ u.bits)
    else .error "scalar type mismatch"

/-- `Parameter::set_scalar<T>(val)` with `u = type_of<T>()`: same checks as
`get_scalar`; writes the low `u.bits` bits of the slot. -/
def Parameter.set_scalar (p : Parameter) (u : HType) (v : Nat) :
    Except String Parameter :=
  match p with
  | none => .error "Parameter is undefined"
  | some c =>
    if scalar_type_ok c.type u then
      if c.is_buffer then .error "Parameter is a buffer"
      else .ok (some
        { c with scalar_data := c.scalar_data / 2 ^ u.bits * 2 ^ u.bits + v % 2 ^ u.bits })
    else .error "scalar type mismatch"

/-- Modelled from the spec: `Parameter::set_min_value(e)` — scalar only. -/
def Parameter.set_min_value (p : Parameter) (e : Expr) : Except String Parameter := do
  p.check_is_scalar
  match p with
  | none => .error "Parameter is undefined"
  | some c => .ok (some { c with min_value := e })

/-- Modelled from the spec: `Parameter::get_min_value()`. -/
def Parameter.get_min_value (p : Parameter) : Except String Expr := do
  p.check_is_scalar
  match p with
  | none => .error "Parameter is undefined"
  | some c => .ok c.min_value

/-- Modelled from the spec: `Parameter::set_max_value(e)`. -/
def Parameter.set_max_value (p : Parameter) (e : Expr) : Except String Parameter := do
  p.check_is_scalar
  match p with
  | none => .error "Parameter is undefined"
  | some c => .ok (some { c with max_value := e })

/-- Modelled from the spec: `Parameter::get_max_value()`. -/
def Parameter.get_max_value (p : Parameter) : Except String Expr := do
  p.check_is_scalar
  match p with
  | none => .error "Parameter is undefined"
  | some c => .ok c.max_value

/-- Modelled from the spec: `Parameter::set_estimate(e)`. -/
def Parameter.set_estimate (p : Parameter) (e : Expr) : Except String Parameter := do
  p.check_is_scalar
  match p with
  | none => .error "Parameter is undefined"
  | some c => .ok (some { c with estimate := e })

/-- Modelled from the spec: `Parameter::get_estimate()`. -/
def Parameter.get_estimate (p : Parameter) : Except String Expr := do
  p.check_is_scalar
  match p with
  | none => .error "Parameter is undefined"
  | some c => .ok c.estimate

/-! ## Dimension

A lightweight per-axis view: a copy of the Parameter handle plus an axis
index, reading and writing that axis on the referenced record. -/

/-- A per-axis view of a buffer parameter (`class Dimension` in the source):
the wrapped handle plus the axis index. -/
structure Dimension where
  param : Parameter
  d : Int
deriving Repr

/-- Modelled from the spec: constructing `Dimension(p, d)` through
`DimensionedParameter::dim(i)` — a usage error unless `p` is a defined
buffer and `0 <= i < dimensions`. -/
def DimensionedParameter.dim (p : Parameter) (i : Int) : Except String Dimension := do
  p.check_dim_ok i
  return ⟨p, i⟩

/-- `Dimension::dim(i)`: a new view of a different axis of the same
parameter (navigation, not mutation). -/
def Dimension.dim (dm : Dimension) (i : Int) : Except String Dimension :=
  DimensionedParameter.dim dm.param i

/-- Modelled from the spec: `Dimension::min()` — the stored min constraint
of this axis when one is set, otherwise a symbolic variable standing for the
unknown min of this axis. -/
def Dimension.min (dm : Dimension) : Except String Expr := do
  let c ← dm.param.min_constraint dm.d
  if c.defined then return c
  else do
    let nm ← dm.param.name
    return Expr.varE int32 (nm ++ ".min." ++ toString dm.d)

/-- Modelled from the spec: `Dimension::extent()`. -/
def Dimension.extent (dm : Dimension) : Except String Expr := do
  let c ← dm.param.extent_constraint dm.d
  if c.defined then return c
  else do
    let nm ← dm.param.name
    return Expr.varE int32 (nm ++ ".extent." ++ toString dm.d)

/-- Modelled from the spec: `Dimension::stride()`. -/
def Dimension.stride (dm : Dimension) : Except String Expr := do
  let c ← dm.param.stride_constraint dm.d
  if c.defined then return c
  else do
    let nm ← dm.param.name
    return Expr.varE int32 (nm ++ ".stride." ++ toString dm.d)

/-- Modelled from the spec: `Dimension::max()` — derived, not stored:
`min() + extent() - 1`. -/
def Dimension.max (dm : Dimension) : Except String Expr := do
  let mn ← dm.min
  let ex ← dm.extent
  return Expr.subE (Expr.addE mn ex) (Expr.intImm int32 1)

/-- Modelled from the spec: `Dimension::min_estimate()` — the optional
scheduler-facing estimate, undefined if never set. -/
def Dimension.min_estimate (dm : Dimension) : Except String Expr :=
  dm.param.min_constraint_estimate dm.d

/-- Modelled from the spec: `Dimension::extent_estimate()`. -/
def Dimension.extent_estimate (dm : Dimension) : Except String Expr :=
  dm.param.extent_constraint_estimate dm.d

/-- Modelled from the spec: `Dimension::set_min(e)` — writes through to the
bound parameter and returns the mutated view for chaining. -/
def Dimension.set_min (dm : Dimension) (e : Expr) : Except String Dimension := do
  let p ← dm.param.set_min_constraint dm.d e
  return ⟨p, dm.d⟩

/-- Modelled from the spec: `Dimension::set_extent(e)`. -/
def Dimension.set_extent (dm : Dimension) (e : Expr) : Except String Dimension := do
  let p ← dm.param.set_extent_constraint dm.d e
  return ⟨p, dm.d⟩

/-- Modelled from the spec: `Dimension::set_stride(e)`. -/
def Dimension.set_stride (dm : Dimension) (e : Expr) : Except String Dimension := do
  let p ← dm.param.set_stride_constraint dm.d e
  return ⟨p, dm.d⟩

/-- Modelled from the spec: `Dimension::set_bounds(min, extent)` — exactly
`set_min` then `set_extent`. -/
def Dimension.set_bounds (dm : Dimension) (mn ext : Expr) : Except String Dimension := do
  let a ← dm.set_min mn
  a.set_extent ext

/-- Modelled from the spec: `Dimension::set_min_estimate(e)`. -/
def Dimension.set_min_estimate (dm : Dimension) (e : Expr) : Except String Dimension := do
  let p ← dm.param.set_min_constraint_estimate dm.d e
  return ⟨p, dm.d⟩

/-- Modelled from the spec: `Dimension::set_extent_estimate(e)`. -/
def Dimension.set_extent_estimate (dm : Dimension) (e : Expr) : Except String Dimension := do
  let p ← dm.param.set_extent_constraint_estimate dm.d e
  return ⟨p, dm.d⟩

/-- Modelled from the spec: `Dimension::set_bounds_estimate(min, extent)` —
`set_min_estimate` then `set_extent_estimate`. -/
def Dimension.set_bounds_estimate (dm : Dimension) (mn ext : Expr) :
    Except String Dimension := do
  let a ← dm.set_min_estimate mn
  a.set_extent_estimate ext

/-! ## DimensionedParameter

The capability interface: one primitive, `parameter()`, supplies the wrapped
buffer Parameter; every other member is derived from it. The derived members
are modelled directly on the wrapped Parameter. -/

/-- Modelled from the spec: `DimensionedParameter::left()` — min of axis 0. -/
def DimensionedParameter.left (p : Parameter) : Except String Expr := do
  let dm ← DimensionedParameter.dim p 0
  dm.min

/-- Modelled from the spec: `DimensionedParameter::right()` — max of axis 0. -/
def DimensionedParameter.right (p : Parameter) : Except String Expr := do
  let dm ← DimensionedParameter.dim p 0
  dm.max

/-- Modelled from the spec: `DimensionedParameter::top()` — min of axis 1. -/
def DimensionedParameter.top (p : Parameter) : Except String Expr := do
  let dm ← DimensionedParameter.dim p 1
  dm.min

/-- Modelled from the spec: `DimensionedParameter::bottom()` — max of axis 1. -/
def DimensionedParameter.bottom (p : Parameter) : Except String Expr := do
  let dm ← DimensionedParameter.dim p 1
  dm.max

/-- Modelled from the spec: `DimensionedParameter::width()` — extent of
axis 0. -/
def DimensionedParameter.width (p : Parameter) : Except String Expr := do
  let dm ← DimensionedParameter.dim p 0
  dm.extent

/-- Modelled from the spec: `DimensionedParameter::height()` — extent of
axis 1. -/
def DimensionedParameter.height (p : Parameter) : Except String Expr := do
  let dm ← DimensionedParameter.dim p 1
  dm.extent

/-- Modelled from the spec: `DimensionedParameter::channels()` — extent of
axis 2. -/
def DimensionedParameter.channels (p : Parameter) : Except String Expr := do
  let dm ← DimensionedParameter.dim p 2
  dm.extent

/-! ## Validation helper -/

/-- The arity diagnostic of `check_call_arg_types`: names the callable and
the expected and actual argument counts. -/
def arity_message (nm : String) (dims : Int) (got : Nat) : String :=
  "call to " ++ nm ++ " expects " ++ toString dims ++
    " arguments, but " ++ toString got ++ " were supplied"

/-- Modelled from the spec: `check_call_arg_types(name, args, dims)` (body in
the missing implementation file) — fails with an arity diagnostic when the
argument count differs from `dims`, then requires every argument to be a
defined 32-bit integer index expression; it never mutates `args`, so the pair
returned carries the outcome together with the argument list after the call. -/
def check_call_arg_types (nm : String) (args : List Expr) (dims : Int) :
    Except String Unit × List Expr :=
  (if (args.length : Int) ≠ dims then
      .error (arity_message nm dims args.length)
    else if args.all (fun a => a.defined && a.typeOf == int32) then .ok ()
    else .error ("call to " ++ nm ++ " has an argument of the wrong type"),
   args)

/-! ## Helper lemmas -/

@[simp]
theorem ok_bind {α β : Type} (a : α) (f : α → Except String β) :
    (Except.ok a >>= f : Except String β) = f a := rfl

@[simp]
theorem error_bind {α β : Type} (s : String) (f : α → Except String β) :
    (Except.error s >>= f : Except String β) = .error s := rfl

theorem getD_set_self {α : Type} (l : List α) (i : Nat) (e x : α)
    (h : i < l.length) : (l.set i e).getD i x = e := by
  simp [List.getD_eq_getElem?_getD, List.getElem?_set_self h]

theorem check_dim_ok_ok (c : ParameterContents) (d : Int)
    (hb : c.is_buffer = true) (h0 : 0 ≤ d) (h1 : d < c.dimensions) :
    Parameter.check_dim_ok (some c) d = .ok () := by
  simp [Parameter.check_dim_ok, hb, h0, h1]

/-! ## Claim theorems -/

/-- The C9 scenario: a 2-D buffer parameter of 32-bit float element type
named "in"; axis 0 bounds set to (0, 100), axis 1 bounds set to (0, 200);
then width, height, left and right are read back. -/
def scenario_in : Except String (Expr × Expr × Expr × Expr) := do
  let p ← Parameter.make 7 float32 true 2 "in" true false
  let d0 ← DimensionedParameter.dim p 0
  let d0b ← d0.set_bounds (Expr.intImm int32 0) (Expr.intImm int32 100)
  let d1 ← DimensionedParameter.dim d0b.param 1
  let d1b ← d1.set_bounds (Expr.intImm int32 0) (Expr.intImm int32 200)
  let q := d1b.param
  let w ← DimensionedParameter.width q
  let h ← DimensionedParameter.height q
  let l ← DimensionedParameter.left q
  let r ← DimensionedParameter.right q
  return (w, h, l, r)

/-- C9: for a 2-D buffer parameter of 32-bit float element type named "in",
after setting axis 0 bounds to (0, 100) and axis 1 bounds to (0, 200), the
DimensionedParameter accessors give width() == 100, height() == 200,
left() == 0 and right() == 99. -/
theorem scenario_in_accessors :
    scenario_in = .ok (Expr.intImm int32 100, Expr.intImm int32 200,
      Expr.intImm int32 0, Expr.intImm int32 99) := by
  rfl

/-- C3: for every defined scalar (non-buffer) parameter of declared type `T`
and every value `v` representable in `T` (given by its bit pattern), after
`set_scalar<T>(v)`, `get_scalar<T>()` returns `v`. -/
theorem scalar_round_trip (c : ParameterContents) (v : Nat)
    (hs : c.is_buffer = false) (hv : v < 2 ^ c.type.bits) :
    (Parameter.set_scalar (some c) c.type v >>= fun p => p.get_scalar c.type) =
      .ok v := by
  have h2 : (c.scalar_data / 2 ^ c.type.bits * 2 ^ c.type.bits + v % 2 ^ c.type.bits) %
      2 ^ c.type.bits = v := by
    rw [Nat.add_comm, Nat.add_mul_mod_self_right, Nat.mod_mod_of_dvd _ dvd_rfl,
      Nat.mod_eq_of_lt hv]
  simp [Parameter.set_scalar, Parameter.get_scalar, scalar_type_ok, hs, h2]

/-- Witness for C3: a 32-bit signed integer scalar parameter round-trips the
value 5. -/
theorem scalar_round_trip_witness :
    (Parameter.set_scalar
        (some { id := 1, type := int32, is_buffer := false, dimensions := 0,
                name := "thresh", is_explicit_name := true,
                is_bound_before_lowering := false, host_alignment := 4,
                min_constraint := [], extent_constraint := [],
                stride_constraint := [], min_constraint_estimate := [],
                extent_constraint_estimate := [], scalar_data := 0,
                min_value := Expr.undef, max_value := Expr.undef,
                estimate := Expr.undef }) int32 5 >>=
        fun p => p.get_scalar int32) = .ok 5 :=
  scalar_round_trip _ 5 rfl (by decide)

/-- C6: `check_call_arg_types(name, args, dims)` returns the argument list
unchanged on every outcome, and fails with the arity diagnostic (naming the
entity and the expected and actual counts) whenever the argument count
differs from `dims`. -/
theorem check_call_arg_types_spec (nm : String) (args : List Expr) (dims : Int) :
    (check_call_arg_types nm args dims).2 = args ∧
    ((args.length : Int) ≠ dims →
      (check_call_arg_types nm args dims).1 =
        .error (arity_message nm dims args.length)) := by
  refine ⟨rfl, fun h => ?_⟩
  simp [check_call_arg_types, h]

/-- Witness for C6: calling the entity "f", which expects 3 arguments, with
the two arguments (int, float) fails with the arity diagnostic and leaves
the argument list untouched. -/
theorem check_call_arg_types_spec_witness :
    (check_call_arg_types "f" [Expr.intImm int32 0, Expr.varE float32 "x"] 3).2 =
      [Expr.intImm int32 0, Expr.varE float32 "x"] ∧
    (check_call_arg_types "f" [Expr.intImm int32 0, Expr.varE float32 "x"] 3).1 =
      .error (arity_message "f" 3 2) :=
  ⟨(check_call_arg_types_spec "f" [Expr.intImm int32 0, Expr.varE float32 "x"] 3).1,
   (check_call_arg_types_spec "f" [Expr.intImm int32 0, Expr.varE float32 "x"] 3).2
     (by decide)⟩

/-- C8: every modelled operation on a default-constructed (undefined)
Parameter handle fails with a usage error, with exactly two exceptions:
`defined()`, which returns false, and `same_as()`, which performs the
record-identity check (two undefined handles are the same, an undefined and
a defined handle never are). -/
theorem undefined_parameter_ops :
    Parameter.defined none = false ∧
    Parameter.same_as none none = true ∧
    (∀ c : ParameterContents, Parameter.same_as none (some c) = false) ∧
    (∀ c : ParameterContents, Parameter.same_as (some c) none = false) ∧
    errs (Parameter.type none) = true ∧
    errs (Parameter.dimensions none) = true ∧
    errs (Parameter.name none) = true ∧
    errs (Parameter.is_explicit_name none) = true ∧
    errs (Parameter.is_bound_before_lowering none) = true ∧
    errs (Parameter.is_buffer none) = true ∧
    errs (Parameter.host_alignment none) = true ∧
    (∀ n, errs (Parameter.set_host_alignment none n) = true) ∧
    (∀ u, errs (Parameter.get_scalar none u) = true) ∧
    (∀ u v, errs (Parameter.set_scalar none u v) = true) ∧
    (∀ d, errs (Parameter.min_constraint none d) = true) ∧
    (∀ d, errs (Parameter.extent_constraint none d) = true) ∧
    (∀ d, errs (Parameter.stride_constraint none d) = true) ∧
    (∀ d, errs (Parameter.min_constraint_estimate none d) = true) ∧
    (∀ d, errs (Parameter.extent_constraint_estimate none d) = true) ∧
    (∀ d e, errs (Parameter.set_min_constraint none d e) = true) ∧
    (∀ d e, errs (Parameter.set_extent_constraint none d e) = true) ∧
    (∀ d e, errs (Parameter.set_stride_constraint none d e) = true) ∧
    (∀ d e, errs (Parameter.set_min_constraint_estimate none d e) = true) ∧
    (∀ d e, errs (Parameter.set_extent_constraint_estimate none d e) = true) ∧
    (∀ e, errs (Parameter.set_min_value none e) = true) ∧
    errs (Parameter.get_min_value none) = true ∧
    (∀ e, errs (Parameter.set_max_value none e) = true) ∧
    errs (Parameter.get_max_value none) = true ∧
    (∀ e, errs (Parameter.set_estimate none e) = true) ∧
    errs (Parameter.get_estimate none) = true ∧
    (∀ i, errs (DimensionedParameter.dim none i) = true) := by
  repeat' apply And.intro
  all_goals intros
  all_goals rfl

@[simp]
theorem pure_eq_ok {α : Type} (a : α) : (pure a : Except String α) = .ok a := rfl

/-- A concrete 2-D float buffer record with axis 0 constrained to min 0 and
extent 10, used to instantiate the per-axis theorems. -/
def bufRec : ParameterContents :=
  { id := 0, type := float32, is_buffer := true, dimensions := 2, name := "b",
    is_explicit_name := true, is_bound_before_lowering := false,
    host_alignment := 4,
    min_constraint := [Expr.intImm int32 0, Expr.undef],
    extent_constraint := [Expr.intImm int32 10, Expr.undef],
    stride_constraint := [Expr.undef, Expr.undef],
    min_constraint_estimate := [Expr.undef, Expr.undef],
    extent_constraint_estimate := [Expr.undef, Expr.undef],
    scalar_data := 0, min_value := Expr.undef, max_value := Expr.undef,
    estimate := Expr.undef }

/-- A concrete 32-bit signed integer scalar record. -/
def scalRec : ParameterContents :=
  { id := 2, type := int32, is_buffer := false, dimensions := 0, name := "s",
    is_explicit_name := true, is_bound_before_lowering := false,
    host_alignment := 4,
    min_constraint := [], extent_constraint := [], stride_constraint := [],
    min_constraint_estimate := [], extent_constraint_estimate := [],
    scalar_data := 0, min_value := Expr.undef, max_value := Expr.undef,
    estimate := Expr.undef }

/-- A concrete handle-typed scalar record. -/
def handleRec : ParameterContents :=
  { id := 3, type := handle64, is_buffer := false, dimensions := 0, name := "h",
    is_explicit_name := true, is_bound_before_lowering := false,
    host_alignment := 8,
    min_constraint := [], extent_constraint := [], stride_constraint := [],
    min_constraint_estimate := [], extent_constraint_estimate := [],
    scalar_data := 0, min_value := Expr.undef, max_value := Expr.undef,
    estimate := Expr.undef }

/-- C1: on every axis of a buffer parameter where both the min and the
extent constraint are set (stored and defined), `Dimension::max()` returns
the derived expression `min + extent - 1`; max is never independently
stored. -/
theorem max_is_min_plus_extent_minus_one
    (c : ParameterContents) (d : Int) (mn ex : Expr)
    (hb : c.is_buffer = true) (h0 : 0 ≤ d) (h1 : d < c.dimensions)
    (hmn : c.min_constraint.getD d.toNat Expr.undef = mn)
    (hex : c.extent_constraint.getD d.toNat Expr.undef = ex)
    (hmnd : mn.defined = true) (hexd : ex.defined = true) :
    Dimension.max ⟨some c, d⟩ =
      .ok (Expr.subE (Expr.addE mn ex) (Expr.intImm int32 1)) := by
  have h := check_dim_ok_ok c d hb h0 h1
  simp only [List.getD_eq_getElem?_getD] at hmn hex
  simp [Dimension.max, Dimension.min, Dimension.extent, Parameter.min_constraint,
    Parameter.extent_constraint, h, hmn, hex, hmnd, hexd]

/-- Witness for C1: axis 0 of the concrete buffer record has min 0 and
extent 10 set, and its max is the derived expression `0 + 10 - 1`. -/
theorem max_is_min_plus_extent_minus_one_witness :
    Dimension.max ⟨some bufRec, 0⟩ =
      .ok (Expr.subE (Expr.addE (Expr.intImm int32 0) (Expr.intImm int32 10))
        (Expr.intImm int32 1)) :=
  max_is_min_plus_extent_minus_one bufRec 0 (Expr.intImm int32 0)
    (Expr.intImm int32 10) rfl (by decide) (by decide) rfl rfl rfl rfl

/-- C2: the constraint round-trips: on any valid axis of a well-formed
buffer parameter, `set_min(e)` followed by `min()` returns `e` itself (for a
defined expression `e`), and the same holds for extent, stride and the
min/extent estimates; on a scalar parameter the min-value, max-value and
estimate setters round-trip through their getters. -/
theorem constraint_round_trip
    (c s : ParameterContents) (d : Int) (e : Expr)
    (hw : c.wf) (hb : c.is_buffer = true) (h0 : 0 ≤ d) (h1 : d < c.dimensions)
    (hd : e.defined = true) (hs : s.is_buffer = false) :
    (Dimension.set_min ⟨some c, d⟩ e >>= Dimension.min) = .ok e ∧
    (Dimension.set_extent ⟨some c, d⟩ e >>= Dimension.extent) = .ok e ∧
    (Dimension.set_stride ⟨some c, d⟩ e >>= Dimension.stride) = .ok e ∧
    (Dimension.set_min_estimate ⟨some c, d⟩ e >>= Dimension.min_estimate) = .ok e ∧
    (Dimension.set_extent_estimate ⟨some c, d⟩ e >>= Dimension.extent_estimate) = .ok e ∧
    (Parameter.set_min_value (some s) e >>= Parameter.get_min_value) = .ok e ∧
    (Parameter.set_max_value (some s) e >>= Parameter.get_max_value) = .ok e ∧
    (Parameter.set_estimate (some s) e >>= Parameter.get_estimate) = .ok e := by
  obtain ⟨l1, l2, l3, l4, l5, hnn, -⟩ := hw
  have hn : d.toNat < c.dimensions.toNat := by omega
  refine ⟨?_, ?_, ?_, ?_, ?_, ?_, ?_, ?_⟩
  · have g := getD_set_self c.min_constraint d.toNat e Expr.undef (by omega)
    simp only [List.getD_eq_getElem?_getD] at g
    simp [Dimension.set_min, Dimension.min, Parameter.set_min_constraint,
      Parameter.min_constraint, Parameter.check_dim_ok, hb, h0, h1, g, hd]
  · have g := getD_set_self c.extent_constraint d.toNat e Expr.undef (by omega)
    simp only [List.getD_eq_getElem?_getD] at g
    simp [Dimension.set_extent, Dimension.extent, Parameter.set_extent_constraint,
      Parameter.extent_constraint, Parameter.check_dim_ok, hb, h0, h1, g, hd]
  · have g := getD_set_self c.stride_constraint d.toNat e Expr.undef (by omega)
    simp only [List.getD_eq_getElem?_getD] at g
    simp [Dimension.set_stride, Dimension.stride, Parameter.set_stride_constraint,
      Parameter.stride_constraint, Parameter.check_dim_ok, hb, h0, h1, g, hd]
  · have g := getD_set_self c.min_constraint_estimate d.toNat e Expr.undef (by omega)
    simp only [List.getD_eq_getElem?_getD] at g
    simp [Dimension.set_min_estimate, Dimension.min_estimate,
      Parameter.set_min_constraint_estimate, Parameter.min_constraint_estimate,
      Parameter.check_dim_ok, hb, h0, h1, g]
  · have g := getD_set_self c.extent_constraint_estimate d.toNat e Expr.undef (by omega)
    simp only [List.getD_eq_getElem?_getD] at g
    simp [Dimension.set_extent_estimate, Dimension.extent_estimate,
      Parameter.set_extent_constraint_estimate, Parameter.extent_constraint_estimate,
      Parameter.check_dim_ok, hb, h0, h1, g]
  · simp [Parameter.set_min_value, Parameter.get_min_value,
      Parameter.check_is_scalar, hs]
  · simp [Parameter.set_max_value, Parameter.get_max_value,
      Parameter.check_is_scalar, hs]
  · simp [Parameter.set_estimate, Parameter.get_estimate,
      Parameter.check_is_scalar, hs]

/-- Witness for C2: axis 1 of the concrete buffer record round-trips the
constraint `3` through `set_min`/`min`. -/
theorem constraint_round_trip_witness :
    (Dimension.set_min ⟨some bufRec, 1⟩ (Expr.intImm int32 3) >>=
      Dimension.min) = .ok (Expr.intImm int32 3) :=
  (constraint_round_trip bufRec scalRec 1 (Expr.intImm int32 3)
    (by decide) rfl (by decide) (by decide) rfl rfl).1

/-- C4: on a defined scalar parameter, `get_scalar<T>()` and
`set_scalar<T>()` succeed exactly when the access type equals the declared
type, with the single exception that a handle-typed parameter may also be
accessed as the 64-bit unsigned integer type. -/
theorem scalar_type_check (c : ParameterContents) (u : HType) (v : Nat)
    (hs : c.is_buffer = false) :
    (errs (Parameter.get_scalar (some c) u) = false ↔
      (c.type = u ∨ (c.type.is_handle = true ∧ u = uInt64))) ∧
    (errs (Parameter.set_scalar (some c) u v) = false ↔
      (c.type = u ∨ (c.type.is_handle = true ∧ u = uInt64))) := by
  have hiff : scalar_type_ok c.type u = true ↔
      (c.type = u ∨ (c.type.is_handle = true ∧ u = uInt64)) := by
    simp [scalar_type_ok]
  constructor
  · rw [← hiff]
    cases hok : scalar_type_ok c.type u <;>
      simp [Parameter.get_scalar, hok, hs, errs]
  · rw [← hiff]
    cases hok : scalar_type_ok c.type u <;>
      simp [Parameter.set_scalar, hok, hs, errs]

/-- Witness for C4: the handle-typed record accepts a 64-bit unsigned
integer access, and the 32-bit integer record rejects a float access. -/
theorem scalar_type_check_witness :
    errs (Parameter.get_scalar (some handleRec) uInt64) = false ∧
    errs (Parameter.get_scalar (some scalRec) float32) = true :=
  ⟨(scalar_type_check handleRec uInt64 0 rfl).1.mpr (Or.inr ⟨rfl, rfl⟩),
   by
    have h := (scalar_type_check scalRec float32 0 rfl).1
    revert h
    decide⟩

/-- C5: constructing a Parameter with `is_buffer == false` and `dims != 0`
fails with a usage error; for every other valid combination (non-negative
rank, zero when not a buffer) construction succeeds and the accessors echo
back exactly the values given. -/
theorem param_ctor (id : Nat) (t : HType) (ib : Bool) (dims : Int)
    (nm : String) (en bl : Bool) :
    (ib = false → dims ≠ 0 → errs (Parameter.make id t ib dims nm en bl) = true) ∧
    (0 ≤ dims → (ib = true ∨ dims = 0) →
      ∃ p : Parameter,
        Parameter.make id t ib dims nm en bl = .ok p ∧
        p.type = .ok t ∧ p.is_buffer = .ok ib ∧ p.dimensions = .ok dims ∧
        p.name = .ok nm ∧ p.is_explicit_name = .ok en ∧
        p.is_bound_before_lowering = .ok bl) := by
  constructor
  · intro h1 h2
    simp [Parameter.make, h1, h2, errs]
  · intro h1 h2
    have hcond : ¬(ib = false ∧ dims ≠ 0) := by
      rcases h2 with h | h <;> simp [h]
    have hneg : ¬dims < 0 := by omega
    refine ⟨some
      { id := id, type := t, is_buffer := ib, dimensions := dims, name := nm,
        is_explicit_name := en, is_bound_before_lowering := bl,
        host_alignment := t.bits / 8,
        min_constraint := List.replicate dims.toNat Expr.undef,
        extent_constraint := List.replicate dims.toNat Expr.undef,
        stride_constraint := List.replicate dims.toNat Expr.undef,
        min_constraint_estimate := List.replicate dims.toNat Expr.undef,
        extent_constraint_estimate := List.replicate dims.toNat Expr.undef,
        scalar_data := 0, min_value := Expr.undef, max_value := Expr.undef,
        estimate := Expr.undef }, ?_, rfl, rfl, rfl, rfl, rfl, rfl⟩
    simp [Parameter.make, hcond, hneg]

/-- Witness for C5: a scalar declared with rank 2 is rejected, and a 2-D
float buffer named "in" is constructed with its accessors echoing the
arguments. -/
theorem param_ctor_witness :
    errs (Parameter.make 0 int32 false 2 "x" false false) = true ∧
    (∃ p : Parameter,
      Parameter.make 1 float32 true 2 "in" true false = .ok p ∧
      p.type = .ok float32 ∧ p.is_buffer = .ok true ∧ p.dimensions = .ok 2 ∧
      p.name = .ok "in" ∧ p.is_explicit_name = .ok true ∧
      p.is_bound_before_lowering = .ok false) :=
  ⟨(param_ctor 0 int32 false 2 "x" false false).1 rfl (by decide),
   (param_ctor 1 float32 true 2 "in" true false).2 (by decide) (Or.inl rfl)⟩

/-- C7: on a buffer parameter, every per-dimension operation succeeds for
indices `0 <= i < dimensions` and fails with a usage error for any other
index, in particular for `i == dimensions` and `i == -1`. -/
theorem dim_index_range (c : ParameterContents) (e : Expr)
    (hb : c.is_buffer = true) (hd : 0 < c.dimensions) :
    (∀ i : Int, 0 ≤ i → i < c.dimensions →
      DimensionedParameter.dim (some c) i = .ok ⟨some c, i⟩ ∧
      errs (Parameter.min_constraint (some c) i) = false ∧
      errs (Parameter.extent_constraint (some c) i) = false ∧
      errs (Parameter.stride_constraint (some c) i) = false ∧
      errs (Parameter.min_constraint_estimate (some c) i) = false ∧
      errs (Parameter.extent_constraint_estimate (some c) i) = false ∧
      errs (Parameter.set_min_constraint (some c) i e) = false ∧
      errs (Parameter.set_extent_constraint (some c) i e) = false ∧
      errs (Parameter.set_stride_constraint (some c) i e) = false ∧
      errs (Parameter.set_min_constraint_estimate (some c) i e) = false ∧
      errs (Parameter.set_extent_constraint_estimate (some c) i e) = false) ∧
    (∀ i : Int, ¬(0 ≤ i ∧ i < c.dimensions) →
      errs (DimensionedParameter.dim (some c) i) = true ∧
      errs (Parameter.min_constraint (some c) i) = true ∧
      errs (Parameter.extent_constraint (some c) i) = true ∧
      errs (Parameter.stride_constraint (some c) i) = true ∧
      errs (Parameter.min_constraint_estimate (some c) i) = true ∧
      errs (Parameter.extent_constraint_estimate (some c) i) = true ∧
      errs (Parameter.set_min_constraint (some c) i e) = true ∧
      errs (Parameter.set_extent_constraint (some c) i e) = true ∧
      errs (Parameter.set_stride_constraint (some c) i e) = true ∧
      errs (Parameter.set_min_constraint_estimate (some c) i e) = true ∧
      errs (Parameter.set_extent_constraint_estimate (some c) i e) = true) ∧
    errs (DimensionedParameter.dim (some c) c.dimensions) = true ∧
    errs (DimensionedParameter.dim (some c) (-1)) = true := by
  have hout : ∀ i : Int, ¬(0 ≤ i ∧ i < c.dimensions) →
      errs (DimensionedParameter.dim (some c) i) = true ∧
      errs (Parameter.min_constraint (some c) i) = true ∧
      errs (Parameter.extent_constraint (some c) i) = true ∧
      errs (Parameter.stride_constraint (some c) i) = true ∧
      errs (Parameter.min_constraint_estimate (some c) i) = true ∧
      errs (Parameter.extent_constraint_estimate (some c) i) = true ∧
      errs (Parameter.set_min_constraint (some c) i e) = true ∧
      errs (Parameter.set_extent_constraint (some c) i e) = true ∧
      errs (Parameter.set_stride_constraint (some c) i e) = true ∧
      errs (Parameter.set_min_constraint_estimate (some c) i e) = true ∧
      errs (Parameter.set_extent_constraint_estimate (some c) i e) = true := by
    intro i hni
    have h : Parameter.check_dim_ok (some c) i =
        .error "dimension index out of range" := by
      simp [Parameter.check_dim_ok, hb, hni]
    exact ⟨by simp [DimensionedParameter.dim, h, errs],
      by simp [Parameter.min_constraint, h, errs],
      by simp [Parameter.extent_constraint, h, errs],
      by simp [Parameter.stride_constraint, h, errs],
      by simp [Parameter.min_constraint_estimate, h, errs],
      by simp [Parameter.extent_constraint_estimate, h, errs],
      by simp [Parameter.set_min_constraint, h, errs],
      by simp [Parameter.set_extent_constraint, h, errs],
      by simp [Parameter.set_stride_constraint, h, errs],
      by simp [Parameter.set_min_constraint_estimate, h, errs],
      by simp [Parameter.set_extent_constraint_estimate, h, errs]⟩
  refine ⟨?_, hout, (hout c.dimensions (by omega)).1, (hout (-1) (by omega)).1⟩
  intro i h0 h1
  have h := check_dim_ok_ok c i hb h0 h1
  refine ⟨by simp [DimensionedParameter.dim, h], ?_, ?_, ?_, ?_, ?_, ?_, ?_, ?_, ?_, ?_⟩
  · simp [Parameter.min_constraint, h, errs]
  · simp [Parameter.extent_constraint, h, errs]
  · simp [Parameter.stride_constraint, h, errs]
  · simp [Parameter.min_constraint_estimate, h, errs]
  · simp [Parameter.extent_constraint_estimate, h, errs]
  · simp [Parameter.set_min_constraint, h, errs]
  · simp [Parameter.set_extent_constraint, h, errs]
  · simp [Parameter.set_stride_constraint, h, errs]
  · simp [Parameter.set_min_constraint_estimate, h, errs]
  · simp [Parameter.set_extent_constraint_estimate, h, errs]

/-- Witness for C7: on the concrete 2-D buffer record, `dim(1)` succeeds
while `dim(2)`, `dim(-1)` and an out-of-range constraint mutator fail. -/
theorem dim_index_range_witness :
    DimensionedParameter.dim (some bufRec) 1 = .ok ⟨some bufRec, 1⟩ ∧
    errs (DimensionedParameter.dim (some bufRec) 2) = true ∧
    errs (DimensionedParameter.dim (some bufRec) (-1)) = true ∧
    errs (Parameter.set_extent_constraint (some bufRec) 2 Expr.undef) = true :=
  ⟨((dim_index_range bufRec Expr.undef rfl (by decide)).1 1 (by decide)
      (by decide)).1,
   ((dim_index_range bufRec Expr.undef rfl (by decide)).2.1 2 (by decide)).1,
   (dim_index_range bufRec Expr.undef rfl (by decide)).2.2.2,
   ((dim_index_range bufRec Expr.undef rfl (by decide)).2.1 2
      (by decide)).2.2.2.2.2.2.2.1⟩

/-- C10: estimate storage is disjoint from constraint storage: on any valid
axis, the estimate mutators (`set_min_estimate`, `set_extent_estimate`,
`set_bounds_estimate`) leave the min, extent and stride constraints of every
axis unchanged, and conversely `set_min`, `set_extent` and `set_stride`
leave the min and extent estimates of every axis unchanged. -/
theorem estimates_disjoint (c : ParameterContents) (d : Int) (e mn ex : Expr)
    (hb : c.is_buffer = true) (h0 : 0 ≤ d) (h1 : d < c.dimensions) :
    (∃ c1, Dimension.set_min_estimate ⟨some c, d⟩ e = .ok ⟨some c1, d⟩ ∧
      c1.min_constraint = c.min_constraint ∧
      c1.extent_constraint = c.extent_constraint ∧
      c1.stride_constraint = c.stride_constraint) ∧
    (∃ c2, Dimension.set_extent_estimate ⟨some c, d⟩ e = .ok ⟨some c2, d⟩ ∧
      c2.min_constraint = c.min_constraint ∧
      c2.extent_constraint = c.extent_constraint ∧
      c2.stride_constraint = c.stride_constraint) ∧
    (∃ c3, Dimension.set_bounds_estimate ⟨some c, d⟩ mn ex = .ok ⟨some c3, d⟩ ∧
      c3.min_constraint = c.min_constraint ∧
      c3.extent_constraint = c.extent_constraint ∧
      c3.stride_constraint = c.stride_constraint) ∧
    (∃ c4, Dimension.set_min ⟨some c, d⟩ e = .ok ⟨some c4, d⟩ ∧
      c4.min_constraint_estimate = c.min_constraint_estimate ∧
      c4.extent_constraint_estimate = c.extent_constraint_estimate) ∧
    (∃ c5, Dimension.set_extent ⟨some c, d⟩ e = .ok ⟨some c5, d⟩ ∧
      c5.min_constraint_estimate = c.min_constraint_estimate ∧
      c5.extent_constraint_estimate = c.extent_constraint_estimate) ∧
    (∃ c6, Dimension.set_stride ⟨some c, d⟩ e = .ok ⟨some c6, d⟩ ∧
      c6.min_constraint_estimate = c.min_constraint_estimate ∧
      c6.extent_constraint_estimate = c.extent_constraint_estimate) := by
  refine ⟨?_, ?_, ?_, ?_, ?_, ?_⟩
  · exact ⟨{ c with min_constraint_estimate := c.min_constraint_estimate.set d.toNat e },
      by simp [Dimension.set_min_estimate, Parameter.set_min_constraint_estimate,
        Parameter.check_dim_ok, hb, h0, h1], rfl, rfl, rfl⟩
  · exact ⟨{ c with extent_constraint_estimate := c.extent_constraint_estimate.set d.toNat e },
      by simp [Dimension.set_extent_estimate, Parameter.set_extent_constraint_estimate,
        Parameter.check_dim_ok, hb, h0, h1], rfl, rfl, rfl⟩
  · exact ⟨{ c with
               min_constraint_estimate := c.min_constraint_estimate.set d.toNat mn
               extent_constraint_estimate := c.extent_constraint_estimate.set d.toNat ex },
      by simp [Dimension.set_bounds_estimate, Dimension.set_min_estimate,
        Dimension.set_extent_estimate, Parameter.set_min_constraint_estimate,
        Parameter.set_extent_constraint_estimate,
        Parameter.check_dim_ok, hb, h0, h1], rfl, rfl, rfl⟩
  · exact ⟨{ c with min_constraint := c.min_constraint.set d.toNat e },
      by simp [Dimension.set_min, Parameter.set_min_constraint,
        Parameter.check_dim_ok, hb, h0, h1], rfl, rfl⟩
  · exact ⟨{ c with extent_constraint := c.extent_constraint.set d.toNat e },
      by simp [Dimension.set_extent, Parameter.set_extent_constraint,
        Parameter.check_dim_ok, hb, h0, h1], rfl, rfl⟩
  · exact ⟨{ c with stride_constraint := c.stride_constraint.set d.toNat e },
      by simp [Dimension.set_stride, Parameter.set_stride_constraint,
        Parameter.check_dim_ok, hb, h0, h1], rfl, rfl⟩

/-- Witness for C10: setting the min estimate of axis 0 of the concrete
buffer record leaves its constraint storage unchanged. -/
theorem estimates_disjoint_witness :
    ∃ c1, Dimension.set_min_estimate ⟨some bufRec, 0⟩ (Expr.intImm int32 4) =
        .ok ⟨some c1, 0⟩ ∧
      c1.min_constraint = bufRec.min_constraint ∧
      c1.extent_constraint = bufRec.extent_constraint ∧
      c1.stride_constraint = bufRec.stride_constraint :=
  (estimates_disjoint bufRec 0 (Expr.intImm int32 4) Expr.undef Expr.undef
    rfl (by decide) (by decide)).1

end HalideSpec

